import Mathlib

/-! Verification of the Nxt-AI-Agent advising system.

The definitions below are shallow embeddings of the repository's Python
sources (conversation memory, recommendation engine, condition extractor,
semester calendar, query validator); the theorems settle the specification
claims about them. -/

namespace NxtAgent

/-! ## ConversationMemory — src/8.memory_agent/server/agent_system.py -/

/-- One conversation record, as built by `ConversationMemory.add_conversation`. -/
structure ConversationTurn where
  timestamp : String
  question : String
  answer : String
  question_type : String
deriving DecidableEq, Repr

/-- Cap on the history (`self.max_history = 10`). -/
def max_history : Nat := 10

/-- Embedding of `ConversationMemory.add_conversation`: append the new turn,
then keep only the last `max_history` entries when the cap is exceeded
(`self.conversation_history = self.conversation_history[-self.max_history:]`). -/
def add_conversation (history : List ConversationTurn) (t : ConversationTurn) :
    List ConversationTurn :=
  let h := history ++ [t]
  if h.length > max_history then h.drop (h.length - max_history) else h

theorem foldl_add_conversation (ts : List ConversationTurn) :
    ∀ init : List ConversationTurn, init.length ≤ max_history →
      ts.foldl add_conversation init =
        (init ++ ts).drop (init.length + ts.length - max_history) := by
  induction ts with
  | nil =>
    intro init h
    simp [Nat.sub_eq_zero_of_le h]
  | cons t ts ih =>
    intro init h
    show ts.foldl add_conversation (add_conversation init t) = _
    by_cases hlt : init.length + 1 ≤ max_history
    · have hstep : add_conversation init t = init ++ [t] := by
        simp only [add_conversation, List.length_append, List.length_singleton]
        rw [if_neg (by omega)]
      rw [hstep, ih (init ++ [t]) (by simpa using hlt)]
      simp [List.append_assoc]
      congr 1
      omega
    · have hlen : init.length = max_history := by omega
      have hstep : add_conversation init t = (init ++ [t]).drop 1 := by
        simp only [add_conversation, List.length_append, List.length_singleton]
        rw [if_pos (by omega)]
        congr 1
        omega
      have hdl : (List.drop 1 (init ++ [t])).length = max_history := by
        simp [List.length_drop, List.length_append]
        omega
      rw [hstep, ih _ (le_of_eq hdl), hdl]
      have hle1 : 1 ≤ (init ++ [t]).length := by simp
      rw [← List.drop_append_of_le_length hle1, List.drop_drop]
      have heq : (init ++ [t]) ++ ts = init ++ t :: ts := by simp
      rw [heq]
      congr 1
      simp only [List.length_cons]
      omega

/-- C2: on a cap-10 ConversationMemory, after every sequence of
`add_conversation` calls the history length never exceeds 10, and after
N ≥ 10 calls starting from the empty history the length is exactly 10 and
the retained turns are exactly the most recent 10 calls in insertion order
(strict FIFO eviction). -/
theorem C2_memory_bound_fifo (ts : List ConversationTurn) :
    (ts.foldl add_conversation []).length ≤ max_history ∧
      (max_history ≤ ts.length →
        (ts.foldl add_conversation []).length = max_history ∧
          ts.foldl add_conversation [] = ts.drop (ts.length - max_history)) := by
  have h := foldl_add_conversation ts [] (by simp [max_history])
  simp only [List.nil_append, List.length_nil, Nat.zero_add] at h
  rw [h]
  refine ⟨?_, fun hge => ⟨?_, rfl⟩⟩
  · rw [List.length_drop]; omega
  · rw [List.length_drop]; omega

/-- Turn used by the concrete witnesses. -/
def demoTurn (i : Nat) : ConversationTurn :=
  ⟨toString i, "질문 " ++ toString i, "답변 " ++ toString i, "general"⟩

/-- Eleven turns, numbered 1 through 11. -/
def demoTurns : List ConversationTurn :=
  (List.range 11).map (fun i => demoTurn (i + 1))

/-- C2 witness: eleven calls on the cap-10 store leave exactly the last ten
turns, and the earliest surviving turn is the 2nd call. -/
theorem C2_memory_bound_fifo_witness :
    (max_history ≤ demoTurns.length ∧
        (demoTurns.foldl add_conversation []).length = max_history ∧
          demoTurns.foldl add_conversation [] =
            demoTurns.drop (demoTurns.length - max_history)) ∧
      (demoTurns.foldl add_conversation []).head? = some (demoTurn 2) :=
  ⟨⟨by decide, (C2_memory_bound_fifo demoTurns).2 (by decide)⟩, by decide⟩

/-! ## RecommendationTool — src/8.memory_agent/server/tools/recommendation_tool.py -/

/-- Course row as consumed by the recommendation tool. -/
structure Course where
  course_code : String
  course_name : String
  credits : Nat
  course_type : String
  department : String
deriving DecidableEq, Repr

/-- The three liberal-arts course types used throughout the engine
(`['교양기초', '교양선택', '핵심교양']`). -/
def liberal_types : List String := ["교양기초", "교양선택", "핵심교양"]

/-- One entry of the recommendation list. -/
structure Recommendation where
  course : Course
  reason : String
  priority : Nat
deriving DecidableEq, Repr

/-- Sum of the `credits` field over a course list, as in
`sum(course['credits'] for course in ...)`. -/
def sum_credits (courses : List Course) : Nat :=
  (courses.map Course.credits).sum

/-- Sum of the credits of the recommended courses. -/
def sum_rec_credits (recommendations : List Recommendation) : Nat :=
  (recommendations.map (fun r => r.course.credits)).sum

/-- Degree-progress snapshot returned by `_calculate_graduation_progress`. -/
structure Progress where
  total_credits : Nat
  major_credits : Nat
  liberal_credits : Nat
  required_total : Nat
  required_major : Nat
  required_liberal : Nat
  remaining_total : Int
  remaining_major : Int
  remaining_liberal : Int
deriving DecidableEq, Repr

/-- Embedding of `_calculate_graduation_progress`: category credit sums over
the completed-course list, fixed requirement thresholds, and
`remaining_* = max(0, required - earned)`. -/
def calculate_graduation_progress (major_code : String) (completed_courses : List Course) :
    Progress :=
  let total_credits := sum_credits completed_courses
  let major_credits :=
    sum_credits (completed_courses.filter (fun c => c.department == major_code))
  let liberal_credits :=
    sum_credits (completed_courses.filter (fun c => liberal_types.contains c.course_type))
  { total_credits := total_credits
    major_credits := major_credits
    liberal_credits := liberal_credits
    required_total := 130
    required_major := 60
    required_liberal := 30
    remaining_total := max 0 (130 - (total_credits : Int))
    remaining_major := max 0 (60 - (major_credits : Int))
    remaining_liberal := max 0 (30 - (liberal_credits : Int)) }

/-- Credits of completed courses counted in neither the major nor the liberal
category (the remainder category of the specification's partition claim). -/
def other_credits (major_code : String) (completed_courses : List Course) : Nat :=
  sum_credits (completed_courses.filter
    (fun c => !(c.department == major_code) && !(liberal_types.contains c.course_type)))

/-- Embedding of `_remove_duplicate_courses`' loop: `seen` holds the
5-character code slices already encountered; only a course whose slice is
unseen is kept. -/
def remove_duplicate_aux (seen : List String) : List Course → List Course
  | [] => []
  | c :: rest =>
    if c.course_code.take 5 ∈ seen then remove_duplicate_aux seen rest
    else c :: remove_duplicate_aux (c.course_code.take 5 :: seen) rest

/-- Embedding of `_remove_duplicate_courses`. -/
def remove_duplicate_courses (courses : List Course) : List Course :=
  remove_duplicate_aux [] courses

/-- Embedding of `_is_already_taken`: some completed course shares the first
5 characters of the candidate's code. -/
def is_already_taken (course : Course) (completed_courses : List Course) : Bool :=
  completed_courses.any
    (fun completed => completed.course_code.take 5 == course.course_code.take 5)

/-- Embedding of `_is_already_recommended`: some already-recommended course
shares the first 5 characters of the candidate's code. -/
def is_already_recommended (course : Course) (recommendations : List Recommendation) : Bool :=
  recommendations.any
    (fun r => r.course.course_code.take 5 == course.course_code.take 5)

/-- Embedding of `_recommend_major_courses`: department courses not yet
taken, first 3. -/
def recommend_major_courses (available_courses completed_courses : List Course)
    (major_code : String) : List Course :=
  (available_courses.filter
    (fun c => c.department == major_code && !(is_already_taken c completed_courses))).take 3

/-- Embedding of `_recommend_liberal_courses`: empty when no liberal credits
remain, else liberal-type courses not yet taken, first 2. -/
def recommend_liberal_courses (available_courses completed_courses : List Course)
    (progress : Progress) : List Course :=
  if progress.remaining_liberal ≤ 0 then []
  else
    (available_courses.filter
      (fun c => liberal_types.contains c.course_type &&
        !(is_already_taken c completed_courses))).take 2

/-- Embedding of `_recommend_elective_courses`: department courses not yet
taken, first 2. -/
def recommend_elective_courses (available_courses completed_courses : List Course)
    (major_code : String) : List Course :=
  (available_courses.filter
    (fun c => c.department == major_code && !(is_already_taken c completed_courses))).take 2

/-- Inner loop of `_generate_recommendations`: accept a candidate when its
credits still fit and no course with the same 5-character slice was
recommended; stop scanning the tier as soon as the running total reaches
`max_credits`. -/
def tier_loop (max_credits : Nat) (reason : String) (priority : Nat) :
    List Course → List Recommendation → Nat → List Recommendation × Nat
  | [], recommendations, current_credits => (recommendations, current_credits)
  | c :: rest, recommendations, current_credits =>
    if current_credits + c.credits ≤ max_credits then
      if is_already_recommended c recommendations then
        tier_loop max_credits reason priority rest recommendations current_credits
      else
        if max_credits ≤ current_credits + c.credits then
          (recommendations ++ [⟨c, reason, priority⟩], current_credits + c.credits)
        else
          tier_loop max_credits reason priority rest
            (recommendations ++ [⟨c, reason, priority⟩]) (current_credits + c.credits)
    else tier_loop max_credits reason priority rest recommendations current_credits

/-- One iteration of `_generate_recommendations`' strategy loop: skip the tier
entirely when the running total already reached `max_credits` (`break`). -/
def tier_step (max_credits : Nat) (reason : String) (priority : Nat)
    (candidates : List Course) (s : List Recommendation × Nat) :
    List Recommendation × Nat :=
  if max_credits ≤ s.2 then s
  else tier_loop max_credits reason priority candidates s.1 s.2

/-- Embedding of `_generate_recommendations`: the three priority tiers run in
order over the strategy outputs, threading the recommendation list and the
running credit total. -/
def generate_recommendations (major_code : String)
    (completed_courses available_courses : List Course) (max_credits : Nat) :
    List Recommendation :=
  let progress := calculate_graduation_progress major_code completed_courses
  (tier_step max_credits "전공 심화 과목" 3
    (recommend_elective_courses available_courses completed_courses major_code)
    (tier_step max_credits "교양 요건 충족" 2
      (recommend_liberal_courses available_courses completed_courses progress)
      (tier_step max_credits "전공 필수 과목" 1
        (recommend_major_courses available_courses completed_courses major_code)
        ([], 0)))).1

theorem tier_loop_sum (max_credits : Nat) (reason : String) (priority : Nat) :
    ∀ (candidates : List Course) (recommendations : List Recommendation)
      (current_credits : Nat),
      sum_rec_credits recommendations = current_credits →
      current_credits ≤ max_credits →
        sum_rec_credits
            (tier_loop max_credits reason priority candidates recommendations
              current_credits).1 =
          (tier_loop max_credits reason priority candidates recommendations
            current_credits).2 ∧
        (tier_loop max_credits reason priority candidates recommendations
          current_credits).2 ≤ max_credits := by
  intro candidates
  induction candidates with
  | nil =>
    intro recommendations current_credits h1 h2
    exact ⟨h1, h2⟩
  | cons c rest ih =>
    intro recommendations current_credits h1 h2
    have hsum : sum_rec_credits (recommendations ++ [⟨c, reason, priority⟩]) =
        current_credits + c.credits := by
      simp [sum_rec_credits, h1.symm]
    simp only [tier_loop]
    by_cases hfit : current_credits + c.credits ≤ max_credits
    · rw [if_pos hfit]
      by_cases halready : is_already_recommended c recommendations = true
    <;> first
      | (rw [if_pos halready]
         exact ih recommendations current_credits h1 h2)
      | (rw [if_neg halready]
         by_cases hreach : max_credits ≤ current_credits + c.credits
         · rw [if_pos hreach]
           exact ⟨hsum, hfit⟩
         · rw [if_neg hreach]
           exact ih _ _ hsum hfit)
    · rw [if_neg hfit]
      exact ih recommendations current_credits h1 h2

theorem tier_step_sum (max_credits : Nat) (reason : String) (priority : Nat)
    (candidates : List Course) (s : List Recommendation × Nat)
    (h1 : sum_rec_credits s.1 = s.2) (h2 : s.2 ≤ max_credits) :
    sum_rec_credits (tier_step max_credits reason priority candidates s).1 =
        (tier_step max_credits reason priority candidates s).2 ∧
      (tier_step max_credits reason priority candidates s).2 ≤ max_credits := by
  unfold tier_step
  by_cases hc : max_credits ≤ s.2
  · rw [if_pos hc]; exact ⟨h1, h2⟩
  · rw [if_neg hc]; exact tier_loop_sum max_credits reason priority candidates s.1 s.2 h1 h2

/-- C1: the recommendation list respects the credit budget — the credit sum of
all returned recommendations is at most `max_credits`, and in particular each
candidate was accepted only while its credits plus the prior running total
still fit under `max_credits`. -/
theorem C1_packing (major_code : String) (completed_courses available_courses : List Course)
    (max_credits : Nat) (h : 0 < max_credits) :
    sum_rec_credits
        (generate_recommendations major_code completed_courses available_courses
          max_credits) ≤ max_credits ∧
      ∀ pre r post,
        generate_recommendations major_code completed_courses available_courses
            max_credits = pre ++ r :: post →
          sum_rec_credits pre + r.course.credits ≤ max_credits := by
  have h0 : sum_rec_credits ([] : List Recommendation) = 0 := rfl
  have s1 := tier_step_sum max_credits "전공 필수 과목" 1
    (recommend_major_courses available_courses completed_courses major_code)
    ([], 0) h0 (Nat.zero_le _)
  have s2 := tier_step_sum max_credits "교양 요건 충족" 2
    (recommend_liberal_courses available_courses completed_courses
      (calculate_graduation_progress major_code completed_courses))
    _ s1.1 s1.2
  have s3 := tier_step_sum max_credits "전공 심화 과목" 3
    (recommend_elective_courses available_courses completed_courses major_code)
    _ s2.1 s2.2
  have hmain : sum_rec_credits
      (generate_recommendations major_code completed_courses available_courses
        max_credits) ≤ max_credits := by
    unfold generate_recommendations
    exact s3.1 ▸ s3.2
  refine ⟨hmain, fun pre r post heq => ?_⟩
  rw [heq] at hmain
  simp [sum_rec_credits, List.map_append, List.sum_append] at hmain
  simp [sum_rec_credits]
  omega

/-- Courses used by the concrete witnesses. -/
def demoCourse (code : String) (credits : Nat) (ctype dept : String) : Course :=
  ⟨code, "과목 " ++ code, credits, ctype, dept⟩

/-- C1 witness: a concrete run with `max_credits = 7` stays within budget. -/
theorem C1_packing_witness :
    0 < 7 ∧
      sum_rec_credits
          (generate_recommendations "CS"
            [demoCourse "CS100-01" 3 "전공필수" "CS"]
            [demoCourse "CS200-01" 3 "전공필수" "CS",
             demoCourse "CS300-01" 3 "전공선택" "CS",
             demoCourse "GE100-01" 2 "교양기초" "GE",
             demoCourse "CS400-01" 3 "전공선택" "CS"] 7) ≤ 7 :=
  ⟨by decide,
    (C1_packing "CS" [demoCourse "CS100-01" 3 "전공필수" "CS"]
      [demoCourse "CS200-01" 3 "전공필수" "CS",
       demoCourse "CS300-01" 3 "전공선택" "CS",
       demoCourse "GE100-01" 2 "교양기초" "GE",
       demoCourse "CS400-01" 3 "전공선택" "CS"] 7 (by decide)).1⟩

theorem remove_duplicate_aux_mem : ∀ (l : List Course) (seen : List String) (c : Course),
    c ∈ remove_duplicate_aux seen l → c ∈ l := by
  intro l
  induction l with
  | nil => intro seen c h; simp [remove_duplicate_aux] at h
  | cons a rest ih =>
    intro seen c h
    simp only [remove_duplicate_aux] at h
    by_cases hs : a.course_code.take 5 ∈ seen
    · rw [if_pos hs] at h
      exact List.mem_cons_of_mem a (ih seen c h)
    · rw [if_neg hs] at h
      rcases List.mem_cons.mp h with h1 | h2
      · exact h1 ▸ List.mem_cons_self a rest
      · exact List.mem_cons_of_mem a (ih _ c h2)

theorem remove_duplicate_aux_pairwise : ∀ (l : List Course) (seen : List String),
    (∀ c ∈ remove_duplicate_aux seen l, c.course_code.take 5 ∉ seen) ∧
      (remove_duplicate_aux seen l).Pairwise
        (fun a b => a.course_code.take 5 ≠ b.course_code.take 5) := by
  intro l
  induction l with
  | nil =>
    intro seen
    exact ⟨fun c h => absurd h (by simp [remove_duplicate_aux]), by
      simp [remove_duplicate_aux]⟩
  | cons a rest ih =>
    intro seen
    by_cases hs : a.course_code.take 5 ∈ seen
    · simp only [remove_duplicate_aux, if_pos hs]
      exact ih seen
    · simp only [remove_duplicate_aux, if_neg hs]
      obtain ⟨hmem, hpw⟩ := ih (a.course_code.take 5 :: seen)
      refine ⟨?_, ?_⟩
      · intro c hc
        rcases List.mem_cons.mp hc with h1 | h2
        · rw [h1]; exact hs
        · exact fun hin => hmem c h2 (List.mem_cons_of_mem _ hin)
      · refine List.Pairwise.cons ?_ hpw
        intro b hb heq
        exact hmem b hb (by rw [← heq]; exact List.mem_cons_self _ _)

theorem remove_duplicate_aux_find (p : String) : ∀ (l : List Course) (seen : List String),
    p ∉ seen →
      (remove_duplicate_aux seen l).find? (fun c => c.course_code.take 5 == p) =
        l.find? (fun c => c.course_code.take 5 == p) := by
  intro l
  induction l with
  | nil => intro seen _; rfl
  | cons a rest ih =>
    intro seen hp
    by_cases hs : a.course_code.take 5 ∈ seen
    · simp only [remove_duplicate_aux, if_pos hs]
      have hne : ¬(a.course_code.take 5 == p) = true := by
        intro hb
        exact hp ((beq_iff_eq.mp hb) ▸ hs)
      rw [ih seen hp, List.find?_cons_of_neg _ (by simpa using hne)]
    · simp only [remove_duplicate_aux, if_neg hs]
      by_cases hm : (a.course_code.take 5 == p) = true
      · have hL : (a :: remove_duplicate_aux (a.course_code.take 5 :: seen) rest).find?
            (fun c => c.course_code.take 5 == p) = some a :=
          List.find?_cons_of_pos _ hm
        have hR : (a :: rest).find? (fun c => c.course_code.take 5 == p) = some a :=
          List.find?_cons_of_pos _ hm
        rw [hL, hR]
      · rw [List.find?_cons_of_neg _ (by simpa using hm),
          List.find?_cons_of_neg _ (by simpa using hm)]
        apply ih
        intro hin
        rcases List.mem_cons.mp hin with h1 | h2
        · exact hm (beq_iff_eq.mpr h1.symm)
        · exact hp h2

theorem tier_loop_pairwise (max_credits : Nat) (reason : String) (priority : Nat) :
    ∀ (candidates : List Course) (recommendations : List Recommendation)
      (current_credits : Nat),
      recommendations.Pairwise
        (fun r1 r2 => r1.course.course_code.take 5 ≠ r2.course.course_code.take 5) →
      (tier_loop max_credits reason priority candidates recommendations
          current_credits).1.Pairwise
        (fun r1 r2 => r1.course.course_code.take 5 ≠ r2.course.course_code.take 5) := by
  intro candidates
  induction candidates with
  | nil => intro recommendations current h; exact h
  | cons c rest ih =>
    intro recommendations current h
    simp only [tier_loop]
    by_cases hfit : current + c.credits ≤ max_credits
    · rw [if_pos hfit]
      by_cases halready : is_already_recommended c recommendations = true
      · rw [if_pos halready]
        exact ih recommendations current h
      · rw [if_neg halready]
        have happ : (recommendations ++
            [(⟨c, reason, priority⟩ : Recommendation)]).Pairwise
            (fun r1 r2 =>
              r1.course.course_code.take 5 ≠ r2.course.course_code.take 5) := by
          rw [List.pairwise_append]
          refine ⟨h, List.pairwise_singleton _ _, ?_⟩
          intro r1 hr1 r2 hr2
          simp only [List.mem_singleton] at hr2
          subst hr2
          have hfalse : (r1.course.course_code.take 5 == c.course_code.take 5) = false := by
            have hany : recommendations.any
                (fun r => r.course.course_code.take 5 == c.course_code.take 5) = false :=
              Bool.not_eq_true _ ▸ halready
            simp [List.any_eq_false] at hany
            simpa using hany r1 hr1
          exact fun hc => by simp [hc] at hfalse
        by_cases hreach : max_credits ≤ current + c.credits
        · rw [if_pos hreach]
          exact happ
        · rw [if_neg hreach]
          exact ih _ _ happ
    · rw [if_neg hfit]
      exact ih recommendations current h

theorem tier_step_pairwise (max_credits : Nat) (reason : String) (priority : Nat)
    (candidates : List Course) (s : List Recommendation × Nat)
    (h : s.1.Pairwise
      (fun r1 r2 => r1.course.course_code.take 5 ≠ r2.course.course_code.take 5)) :
    (tier_step max_credits reason priority candidates s).1.Pairwise
      (fun r1 r2 => r1.course.course_code.take 5 ≠ r2.course.course_code.take 5) := by
  unfold tier_step
  by_cases hc : max_credits ≤ s.2
  · rw [if_pos hc]; exact h
  · rw [if_neg hc]; exact tier_loop_pairwise max_credits reason priority candidates s.1 s.2 h

/-- C5: deduplication by 5-character code slice — the deduplicated pool keeps
at most one course per slice (pairwise distinct slices), every kept course
comes from the input, the survivor for a slice is exactly the first input
course carrying it, and the final recommendation list also contains at most
one course per slice. -/
theorem C5_dedup (courses : List Course) (major_code : String)
    (completed_courses available_courses : List Course) (max_credits : Nat) :
    (remove_duplicate_courses courses).Pairwise
        (fun a b => a.course_code.take 5 ≠ b.course_code.take 5) ∧
      (∀ c ∈ remove_duplicate_courses courses, c ∈ courses) ∧
      (∀ p, (remove_duplicate_courses courses).find?
          (fun c => c.course_code.take 5 == p) =
        courses.find? (fun c => c.course_code.take 5 == p)) ∧
      (generate_recommendations major_code completed_courses available_courses
          max_credits).Pairwise
        (fun r1 r2 => r1.course.course_code.take 5 ≠ r2.course.course_code.take 5) := by
  refine ⟨(remove_duplicate_aux_pairwise courses []).2,
    fun c hc => remove_duplicate_aux_mem courses [] c hc,
    fun p => remove_duplicate_aux_find p courses [] (by simp), ?_⟩
  unfold generate_recommendations
  exact tier_step_pairwise _ _ _ _ _
    (tier_step_pairwise _ _ _ _ _
      (tier_step_pairwise _ _ _ _ _ (List.Pairwise.nil)))

/-- C5 witness: with two sections of the same logical course, the surviving
deduplicated course is an element of the input list. -/
theorem C5_dedup_witness :
    demoCourse "CS100-01" 3 "전공필수" "CS" ∈
        remove_duplicate_courses
          [demoCourse "CS100-01" 3 "전공필수" "CS",
           demoCourse "CS100-02" 3 "전공필수" "CS"] ∧
      demoCourse "CS100-01" 3 "전공필수" "CS" ∈
        [demoCourse "CS100-01" 3 "전공필수" "CS",
         demoCourse "CS100-02" 3 "전공필수" "CS"] :=
  ⟨by decide,
    (C5_dedup [demoCourse "CS100-01" 3 "전공필수" "CS",
        demoCourse "CS100-02" 3 "전공필수" "CS"] "CS" [] [] 0).2.1
      (demoCourse "CS100-01" 3 "전공필수" "CS") (by decide)⟩

theorem progress_partition (major_code : String) :
    ∀ completed_courses : List Course,
      (∀ c ∈ completed_courses,
        ¬(c.department = major_code ∧ c.course_type ∈ liberal_types)) →
      sum_credits completed_courses =
        sum_credits (completed_courses.filter (fun c => c.department == major_code)) +
          sum_credits (completed_courses.filter
            (fun c => liberal_types.contains c.course_type)) +
          other_credits major_code completed_courses := by
  intro l
  induction l with
  | nil => intro _; rfl
  | cons c rest ih =>
    intro h
    have hc := h c (List.mem_cons_self c rest)
    have hrest := ih (fun d hd => h d (List.mem_cons_of_mem c hd))
    by_cases h1 : c.department = major_code
    · have h2 : c.course_type ∉ liberal_types := fun hm => hc ⟨h1, hm⟩
      simp [sum_credits, other_credits, List.filter_cons, h1, h2] at hrest ⊢
      omega
    · by_cases h2 : c.course_type ∈ liberal_types
      · simp [sum_credits, other_credits, List.filter_cons, h1, h2] at hrest ⊢
        omega
      · simp [sum_credits, other_credits, List.filter_cons, h1, h2] at hrest ⊢
        omega

/-- C3 counterexample: a completed course whose department equals the
student's major and whose course type is a liberal type is counted in both
the major and the liberal category, so the categories do not partition the
total — `total_credits ≠ major_credits + liberal_credits + other_credits`. -/
theorem C3_partition_counterexample :
    (calculate_graduation_progress "CS"
          [demoCourse "CS1GE-01" 3 "교양선택" "CS"]).total_credits ≠
      (calculate_graduation_progress "CS"
          [demoCourse "CS1GE-01" 3 "교양선택" "CS"]).major_credits +
        (calculate_graduation_progress "CS"
          [demoCourse "CS1GE-01" 3 "교양선택" "CS"]).liberal_credits +
        other_credits "CS" [demoCourse "CS1GE-01" 3 "교양선택" "CS"] := by
  decide

/-- C3 (amended): for every completed-course list the remaining-credit
figures of the degree progress are non-negative, and whenever no completed
course lies in both the major department and a liberal course type, the
three credit categories partition the total with no course double-counted. -/
theorem C3_progress (major_code : String) (completed_courses : List Course) :
    0 ≤ (calculate_graduation_progress major_code completed_courses).remaining_total ∧
      0 ≤ (calculate_graduation_progress major_code completed_courses).remaining_major ∧
      0 ≤ (calculate_graduation_progress major_code completed_courses).remaining_liberal ∧
      ((∀ c ∈ completed_courses,
          ¬(c.department = major_code ∧ c.course_type ∈ liberal_types)) →
        (calculate_graduation_progress major_code completed_courses).total_credits =
          (calculate_graduation_progress major_code completed_courses).major_credits +
            (calculate_graduation_progress major_code completed_courses).liberal_credits +
            other_credits major_code completed_courses) :=
  ⟨le_max_left 0 _, le_max_left 0 _, le_max_left 0 _,
    fun h => progress_partition major_code completed_courses h⟩

/-- C3 witness: on a concrete completed list whose major and liberal courses
are disjoint, the progress figures are non-negative and the categories
partition the total. -/
theorem C3_progress_witness :
    0 ≤ (calculate_graduation_progress "CS"
        [demoCourse "CS100-01" 3 "전공필수" "CS",
         demoCourse "GE100-01" 2 "교양기초" "GE"]).remaining_total ∧
      0 ≤ (calculate_graduation_progress "CS"
        [demoCourse "CS100-01" 3 "전공필수" "CS",
         demoCourse "GE100-01" 2 "교양기초" "GE"]).remaining_major ∧
      0 ≤ (calculate_graduation_progress "CS"
        [demoCourse "CS100-01" 3 "전공필수" "CS",
         demoCourse "GE100-01" 2 "교양기초" "GE"]).remaining_liberal ∧
      (calculate_graduation_progress "CS"
        [demoCourse "CS100-01" 3 "전공필수" "CS",
         demoCourse "GE100-01" 2 "교양기초" "GE"]).total_credits =
        (calculate_graduation_progress "CS"
          [demoCourse "CS100-01" 3 "전공필수" "CS",
           demoCourse "GE100-01" 2 "교양기초" "GE"]).major_credits +
          (calculate_graduation_progress "CS"
            [demoCourse "CS100-01" 3 "전공필수" "CS",
             demoCourse "GE100-01" 2 "교양기초" "GE"]).liberal_credits +
          other_credits "CS"
            [demoCourse "CS100-01" 3 "전공필수" "CS",
             demoCourse "GE100-01" 2 "교양기초" "GE"] :=
  ⟨(C3_progress "CS"
      [demoCourse "CS100-01" 3 "전공필수" "CS",
       demoCourse "GE100-01" 2 "교양기초" "GE"]).1,
    (C3_progress "CS"
      [demoCourse "CS100-01" 3 "전공필수" "CS",
       demoCourse "GE100-01" 2 "교양기초" "GE"]).2.1,
    (C3_progress "CS"
      [demoCourse "CS100-01" 3 "전공필수" "CS",
       demoCourse "GE100-01" 2 "교양기초" "GE"]).2.2.1,
    (C3_progress "CS"
      [demoCourse "CS100-01" 3 "전공필수" "CS",
       demoCourse "GE100-01" 2 "교양기초" "GE"]).2.2.2 (by decide)⟩

/-! ## RecommendationEngineTool — src/6.recommendate_nxtclass/recommendation_engine_tool.py -/

/-- Course row as consumed by the step-6 recommendation engine; this variant
carries a `prerequisites` column (comma-separated codes, possibly absent). -/
structure Course6 where
  course_code : String
  course_name : String
  credits : Nat
  course_type : String
  department : String
  prerequisites : Option String
deriving DecidableEq, Repr

/-- Recommendation entry of the step-6 engine. -/
structure Recommendation6 where
  course : Course6
  reason : String
  priority : Nat
deriving DecidableEq, Repr

/-- Python `str.split(',')` on the underlying characters: split at every
comma, keeping empty pieces. -/
def py_split_commas : List Char → List (List Char)
  | [] => [[]]
  | c :: rest =>
    if c = ',' then [] :: py_split_commas rest
    else
      match py_split_commas rest with
      | [] => [[c]]
      | s :: ss => (c :: s) :: ss

/-- Python `str.split(',')` as strings. -/
def py_split_comma (s : String) : List String :=
  (py_split_commas s.data).map (fun l => (⟨l⟩ : String))

/-- Python `str.strip()`: whitespace removed from both ends. -/
def py_strip (s : String) : String :=
  ⟨((s.data.dropWhile Char.isWhitespace).reverse.dropWhile Char.isWhitespace).reverse⟩

/-- Embedding of `_check_prerequisites`: a falsy `prerequisites` value (absent
or the empty string) passes; otherwise the comma-separated list is split,
each entry stripped, and every non-empty entry must appear among the
completed course codes. -/
def check_prerequisites (course : Course6) (completed_courses : List Course6) : Bool :=
  match course.prerequisites with
  | none => true
  | some s =>
    if s.data.isEmpty then true
    else (py_split_comma s).all fun p =>
      (py_strip p).data.isEmpty ||
        (completed_courses.map Course6.course_code).contains (py_strip p)

/-- Non-empty stripped entries of the comma-separated prerequisite list: the
prerequisite codes the engine actually requires. -/
def listed_prerequisites (course : Course6) : List String :=
  match course.prerequisites with
  | none => []
  | some s =>
    if s.data.isEmpty then []
    else (((py_split_comma s).map py_strip).filter (fun p => !p.data.isEmpty))

/-- Embedding of `_is_same_course`: empty codes never match; otherwise the
first 5 characters are compared. -/
def is_same_course (course_code1 course_code2 : String) : Bool :=
  if course_code1.isEmpty || course_code2.isEmpty then false
  else course_code1.take 5 == course_code2.take 5

/-- Embedding of the step-6 `_is_already_taken`. -/
def is_already_taken6 (course_code : String) (completed_courses : List Course6) : Bool :=
  completed_courses.any (fun completed => is_same_course course_code completed.course_code)

/-- Sum of the `credits` field over step-6 course rows. -/
def sum_credits6 (courses : List Course6) : Nat :=
  (courses.map Course6.credits).sum

/-- Embedding of the step-6 `_calculate_graduation_progress` (identical logic
to the step-8 one). -/
def calculate_graduation_progress6 (major_code : String)
    (completed_courses : List Course6) : Progress :=
  let total_credits := sum_credits6 completed_courses
  let major_credits :=
    sum_credits6 (completed_courses.filter (fun c => c.department == major_code))
  let liberal_credits :=
    sum_credits6 (completed_courses.filter (fun c => liberal_types.contains c.course_type))
  { total_credits := total_credits
    major_credits := major_credits
    liberal_credits := liberal_credits
    required_total := 130
    required_major := 60
    required_liberal := 30
    remaining_total := max 0 (130 - (total_credits : Int))
    remaining_major := max 0 (60 - (major_credits : Int))
    remaining_liberal := max 0 (30 - (liberal_credits : Int)) }

/-- Tier-1 loop of the step-6 `_generate_recommendations` (major courses):
accepts every fitting candidate that passes the prerequisite check; this tier
has no break and no duplicate check. -/
def tier1_loop (max_credits : Nat) (completed_courses : List Course6) :
    List Course6 → List Recommendation6 → Nat → List Recommendation6 × Nat
  | [], recommendations, current_credits => (recommendations, current_credits)
  | c :: rest, recommendations, current_credits =>
    if current_credits + c.credits ≤ max_credits then
      if check_prerequisites c completed_courses then
        tier1_loop max_credits completed_courses rest
          (recommendations ++ [⟨c, "전공 필수 과목", 1⟩]) (current_credits + c.credits)
      else tier1_loop max_credits completed_courses rest recommendations current_credits
    else tier1_loop max_credits completed_courses rest recommendations current_credits

/-- Tier-2 loop of the step-6 engine (liberal courses): like tier 1 but breaks
once the running total reaches the cap. -/
def tier2_loop (max_credits : Nat) (completed_courses : List Course6) :
    List Course6 → List Recommendation6 → Nat → List Recommendation6 × Nat
  | [], recommendations, current_credits => (recommendations, current_credits)
  | c :: rest, recommendations, current_credits =>
    if current_credits + c.credits ≤ max_credits then
      if check_prerequisites c completed_courses then
        if max_credits ≤ current_credits + c.credits then
          (recommendations ++ [⟨c, "교양 요건 충족", 2⟩], current_credits + c.credits)
        else
          tier2_loop max_credits completed_courses rest
            (recommendations ++ [⟨c, "교양 요건 충족", 2⟩]) (current_credits + c.credits)
      else tier2_loop max_credits completed_courses rest recommendations current_credits
    else tier2_loop max_credits completed_courses rest recommendations current_credits

/-- Tier-3 loop of the step-6 engine (elective courses): additionally rejects
candidates sharing a 5-character code slice with an earlier recommendation. -/
def tier3_loop (max_credits : Nat) (completed_courses : List Course6) :
    List Course6 → List Recommendation6 → Nat → List Recommendation6 × Nat
  | [], recommendations, current_credits => (recommendations, current_credits)
  | c :: rest, recommendations, current_credits =>
    if current_credits + c.credits ≤ max_credits then
      if check_prerequisites c completed_courses then
        if recommendations.any
            (fun r => is_same_course r.course.course_code c.course_code) then
          tier3_loop max_credits completed_courses rest recommendations current_credits
        else
          if max_credits ≤ current_credits + c.credits then
            (recommendations ++ [⟨c, "전공 심화 과목", 3⟩], current_credits + c.credits)
          else
            tier3_loop max_credits completed_courses rest
              (recommendations ++ [⟨c, "전공 심화 과목", 3⟩]) (current_credits + c.credits)
      else tier3_loop max_credits completed_courses rest recommendations current_credits
    else tier3_loop max_credits completed_courses rest recommendations current_credits

/-- State after the step-6 engine's tier 1. -/
def gen6_s1 (major_code : String) (completed_courses available_courses : List Course6)
    (max_credits : Nat) : List Recommendation6 × Nat :=
  tier1_loop max_credits completed_courses
    (available_courses.filter (fun c => c.department == major_code &&
      !(is_already_taken6 c.course_code completed_courses))) [] 0

/-- State after the step-6 engine's tier 2, entered only while liberal credits
remain. -/
def gen6_s2 (major_code : String) (completed_courses available_courses : List Course6)
    (max_credits : Nat) : List Recommendation6 × Nat :=
  let s1 := gen6_s1 major_code completed_courses available_courses max_credits
  if 0 < (calculate_graduation_progress6 major_code completed_courses).remaining_liberal then
    tier2_loop max_credits completed_courses
      (available_courses.filter (fun c => liberal_types.contains c.course_type &&
        !(is_already_taken6 c.course_code completed_courses))) s1.1 s1.2
  else s1

/-- State after the step-6 engine's tier 3, entered only while the running
total is below the cap. -/
def gen6_s3 (major_code : String) (completed_courses available_courses : List Course6)
    (max_credits : Nat) : List Recommendation6 × Nat :=
  let s2 := gen6_s2 major_code completed_courses available_courses max_credits
  if s2.2 < max_credits then
    tier3_loop max_credits completed_courses
      (available_courses.filter (fun c => c.department == major_code &&
        !(is_already_taken6 c.course_code completed_courses))) s2.1 s2.2
  else s2

/-- Embedding of the step-6 `_generate_recommendations`. -/
def generate_recommendations6 (major_code : String)
    (completed_courses available_courses : List Course6) (max_credits : Nat) :
    List Recommendation6 :=
  (gen6_s3 major_code completed_courses available_courses max_credits).1

theorem tier1_loop_prereq (max_credits : Nat) (completed_courses : List Course6) :
    ∀ (candidates : List Course6) (recommendations : List Recommendation6)
      (current_credits : Nat),
      (∀ r ∈ recommendations, check_prerequisites r.course completed_courses = true) →
      ∀ r ∈ (tier1_loop max_credits completed_courses candidates recommendations
          current_credits).1,
        check_prerequisites r.course completed_courses = true := by
  intro candidates
  induction candidates with
  | nil => intro recommendations current h; exact h
  | cons c rest ih =>
    intro recommendations current h
    simp only [tier1_loop]
    by_cases hfit : current + c.credits ≤ max_credits
    · rw [if_pos hfit]
      by_cases hck : check_prerequisites c completed_courses = true
      · rw [if_pos hck]
        refine ih _ _ (fun r hr => ?_)
        rcases List.mem_append.mp hr with h1 | h2
        · exact h r h1
        · simp only [List.mem_singleton] at h2
          rw [h2]
          exact hck
      · rw [if_neg hck]
        exact ih _ _ h
    · rw [if_neg hfit]
      exact ih _ _ h

theorem tier2_loop_prereq (max_credits : Nat) (completed_courses : List Course6) :
    ∀ (candidates : List Course6) (recommendations : List Recommendation6)
      (current_credits : Nat),
      (∀ r ∈ recommendations, check_prerequisites r.course completed_courses = true) →
      ∀ r ∈ (tier2_loop max_credits completed_courses candidates recommendations
          current_credits).1,
        check_prerequisites r.course completed_courses = true := by
  intro candidates
  induction candidates with
  | nil => intro recommendations current h; exact h
  | cons c rest ih =>
    intro recommendations current h
    have hext : check_prerequisites c completed_courses = true →
        ∀ r ∈ recommendations ++ [(⟨c, "교양 요건 충족", 2⟩ : Recommendation6)],
          check_prerequisites r.course completed_courses = true := by
      intro hck r hr
      rcases List.mem_append.mp hr with h1 | h2
      · exact h r h1
      · simp only [List.mem_singleton] at h2
        rw [h2]
        exact hck
    simp only [tier2_loop]
    by_cases hfit : current + c.credits ≤ max_credits
    · rw [if_pos hfit]
      by_cases hck : check_prerequisites c completed_courses = true
      · rw [if_pos hck]
        by_cases hreach : max_credits ≤ current + c.credits
        · rw [if_pos hreach]
          exact hext hck
        · rw [if_neg hreach]
          exact ih _ _ (hext hck)
      · rw [if_neg hck]
        exact ih _ _ h
    · rw [if_neg hfit]
      exact ih _ _ h

theorem tier3_loop_prereq (max_credits : Nat) (completed_courses : List Course6) :
    ∀ (candidates : List Course6) (recommendations : List Recommendation6)
      (current_credits : Nat),
      (∀ r ∈ recommendations, check_prerequisites r.course completed_courses = true) →
      ∀ r ∈ (tier3_loop max_credits completed_courses candidates recommendations
          current_credits).1,
        check_prerequisites r.course completed_courses = true := by
  intro candidates
  induction candidates with
  | nil => intro recommendations current h; exact h
  | cons c rest ih =>
    intro recommendations current h
    have hext : check_prerequisites c completed_courses = true →
        ∀ r ∈ recommendations ++ [(⟨c, "전공 심화 과목", 3⟩ : Recommendation6)],
          check_prerequisites r.course completed_courses = true := by
      intro hck r hr
      rcases List.mem_append.mp hr with h1 | h2
      · exact h r h1
      · simp only [List.mem_singleton] at h2
        rw [h2]
        exact hck
    simp only [tier3_loop]
    by_cases hfit : current + c.credits ≤ max_credits
    · rw [if_pos hfit]
      by_cases hck : check_prerequisites c completed_courses = true
      · rw [if_pos hck]
        by_cases hdup : recommendations.any
            (fun r => is_same_course r.course.course_code c.course_code) = true
        · rw [if_pos hdup]
          exact ih _ _ h
        · rw [if_neg hdup]
          by_cases hreach : max_credits ≤ current + c.credits
          · rw [if_pos hreach]
            exact hext hck
          · rw [if_neg hreach]
            exact ih _ _ (hext hck)
      · rw [if_neg hck]
        exact ih _ _ h
    · rw [if_neg hfit]
      exact ih _ _ h

theorem check_prerequisites_iff (course : Course6) (completed_courses : List Course6) :
    check_prerequisites course completed_courses = true ↔
      ∀ p ∈ listed_prerequisites course,
        p ∈ completed_courses.map Course6.course_code := by
  unfold check_prerequisites listed_prerequisites
  cases hp : course.prerequisites with
  | none => simp
  | some s =>
    by_cases he : s.data.isEmpty
    · simp [he]
    · simp only [he, if_false, Bool.false_eq_true, ite_false, List.all_eq_true,
        List.mem_filter, List.mem_map]
      constructor
      · rintro hall q ⟨⟨p, hp1, hp2⟩, hq⟩
        have := hall p hp1
        rcases Bool.or_eq_true _ _ |>.mp this with h1 | h2
        · rw [hp2] at h1
          simp [h1] at hq
        · rw [← hp2]
          exact List.mem_map.mp (List.elem_iff.mp h2)
      · intro hmem p hp1
        by_cases hte : (py_strip p).data.isEmpty = true
        · exact Bool.or_eq_true _ _ |>.mpr (Or.inl hte)
        · exact Bool.or_eq_true _ _ |>.mpr (Or.inr (List.elem_iff.mpr
            (List.mem_map.mpr (hmem (py_strip p) ⟨⟨p, hp1, rfl⟩, by simpa using hte⟩))))

/-- C4: every course the step-6 engine recommends passed the prerequisite
check, the check succeeds exactly when every listed (non-empty, stripped)
prerequisite code appears among the completed course codes, and a course with
an absent or empty prerequisite list always passes — so a candidate declaring
a non-empty prerequisite list is rejected in every tier unless all its listed
prerequisites are completed. -/
theorem C4_prerequisites (major_code : String)
    (completed_courses available_courses : List Course6) (max_credits : Nat) :
    (∀ r ∈ generate_recommendations6 major_code completed_courses available_courses
        max_credits,
      check_prerequisites r.course completed_courses = true) ∧
      (∀ course : Course6,
        check_prerequisites course completed_courses = true ↔
          ∀ p ∈ listed_prerequisites course,
            p ∈ completed_courses.map Course6.course_code) ∧
      (∀ course : Course6,
        course.prerequisites = none ∨ course.prerequisites = some "" →
          check_prerequisites course completed_courses = true) := by
  refine ⟨?_, fun course => check_prerequisites_iff course completed_courses,
    fun course hc => ?_⟩
  · have h1 := tier1_loop_prereq max_credits completed_courses
      (available_courses.filter (fun c => c.department == major_code &&
        !(is_already_taken6 c.course_code completed_courses))) [] 0
      (by intro r hr; simp at hr)
    have h2 : ∀ r ∈ (gen6_s2 major_code completed_courses available_courses
        max_credits).1, check_prerequisites r.course completed_courses = true := by
      unfold gen6_s2
      by_cases hg : 0 < (calculate_graduation_progress6 major_code
          completed_courses).remaining_liberal
      · rw [if_pos hg]
        exact tier2_loop_prereq max_credits completed_courses _ _ _ h1
      · rw [if_neg hg]
        exact h1
    have h3 : ∀ r ∈ (gen6_s3 major_code completed_courses available_courses
        max_credits).1, check_prerequisites r.course completed_courses = true := by
      unfold gen6_s3
      by_cases hg : (gen6_s2 major_code completed_courses available_courses
          max_credits).2 < max_credits
      · rw [if_pos hg]
        exact tier3_loop_prereq max_credits completed_courses _ _ _ h2
      · rw [if_neg hg]
        exact h2
    exact h3
  · rcases hc with hnone | hempty
    · unfold check_prerequisites
      rw [hnone]
    · unfold check_prerequisites
      rw [hempty]
      rfl

/-- C4 witness: a course with an absent prerequisite list passes the check. -/
theorem C4_prerequisites_witness :
    check_prerequisites ⟨"CS100-01", "자료구조", 3, "전공필수", "CS", none⟩ [] = true :=
  (C4_prerequisites "CS" [] [] 0).2.2
    ⟨"CS100-01", "자료구조", 3, "전공필수", "CS", none⟩ (Or.inl rfl)

/-! ## SemesterManager — src/7.multi_agent/server/semester_utils.py -/

/-- Result dictionary of `get_current_semester_info`; fields start as `None`
and are filled by the branch taken. -/
structure SemesterInfo where
  current_semester : Option Nat
  current_semester_year : Option Int
  next_semester : Option Nat
  next_semester_year : Option Int
  prev_semester : Option Nat
  prev_semester_year : Option Int
deriving DecidableEq, Repr

/-- Embedding of `SemesterManager.get_current_semester_info`, as a function of
the current date's year, month and day (the Python reads them from
`datetime.now()`). -/
def get_current_semester_info (year : Int) (month day : Nat) : SemesterInfo :=
  if month = 3 ∨ month = 4 ∨ month = 5 ∨ (month = 6 ∧ day ≤ 20) then
    { current_semester := some 1
      current_semester_year := some year
      next_semester := some 2
      next_semester_year := some year
      prev_semester := some 2
      prev_semester_year := some (year - 1) }
  else if month = 9 ∨ month = 10 ∨ month = 11 ∨ (month = 12 ∧ day ≤ 20) then
    { current_semester := some 2
      current_semester_year := some year
      next_semester := some 1
      next_semester_year := some (year + 1)
      prev_semester := some 1
      prev_semester_year := some year }
  else if month = 1 ∨ month = 2 then
    { current_semester := none
      current_semester_year := none
      next_semester := some 1
      next_semester_year := some year
      prev_semester := some 2
      prev_semester_year := some (year - 1) }
  else
    { current_semester := none
      current_semester_year := none
      next_semester := some (if month ≤ 8 then 2 else 1)
      next_semester_year := some (if month = 12 then year + 1 else year)
      prev_semester := some (if month ≤ 8 then 1 else 2)
      prev_semester_year := some year }

/-- Modelled from the claim's words: the term-1 window, March 1 through
June 20 inclusive. -/
def in_term1_window (month day : Nat) : Prop :=
  (3 ≤ month ∧ month ≤ 6) ∧ (month = 6 → day ≤ 20)

/-- Modelled from the claim's words: the term-2 window, September 1 through
December 20 inclusive. -/
def in_term2_window (month day : Nat) : Prop :=
  (9 ≤ month ∧ month ≤ 12) ∧ (month = 12 → day ≤ 20)

/-- C7: for every valid date the calendar classifies it into exactly one of
term-1 window (March 1 – June 20), term-2 window (September 1 – December 20)
or vacation, always returns next and previous semester values, and on
April 10 of any year Y returns current = term 1 of Y, next = term 2 of Y and
prev = term 2 of Y−1. -/
theorem C7_semester_calendar (year : Int) (month day : Nat)
    (hm1 : 1 ≤ month) (hm2 : month ≤ 12) (hd1 : 1 ≤ day) (hd2 : day ≤ 31) :
    ((get_current_semester_info year month day).current_semester = some 1 ↔
        in_term1_window month day) ∧
      ((get_current_semester_info year month day).current_semester = some 2 ↔
        in_term2_window month day) ∧
      ((get_current_semester_info year month day).current_semester = none ↔
        (¬in_term1_window month day ∧ ¬in_term2_window month day)) ∧
      (get_current_semester_info year month day).next_semester.isSome = true ∧
      (get_current_semester_info year month day).next_semester_year.isSome = true ∧
      (get_current_semester_info year month day).prev_semester.isSome = true ∧
      (get_current_semester_info year month day).prev_semester_year.isSome = true ∧
      get_current_semester_info year 4 10 =
        ⟨some 1, some year, some 2, some year, some 2, some (year - 1)⟩ := by
  have hscen : get_current_semester_info year 4 10 =
      ⟨some 1, some year, some 2, some year, some 2, some (year - 1)⟩ := by
    simp [get_current_semester_info]
  unfold in_term1_window in_term2_window
  by_cases h1 : month = 3 ∨ month = 4 ∨ month = 5 ∨ (month = 6 ∧ day ≤ 20)
  · simp only [get_current_semester_info, if_pos h1]
    exact ⟨by simp; omega, by simp; omega, by simp; omega, rfl, rfl, rfl, rfl, hscen⟩
  · by_cases h2 : month = 9 ∨ month = 10 ∨ month = 11 ∨ (month = 12 ∧ day ≤ 20)
    · simp only [get_current_semester_info, if_neg h1, if_pos h2]
      exact ⟨by simp; omega, by simp; omega, by simp; omega, rfl, rfl, rfl, rfl, hscen⟩
    · by_cases h3 : month = 1 ∨ month = 2
      · simp only [get_current_semester_info, if_neg h1, if_neg h2, if_pos h3]
        exact ⟨by simp; omega, by simp; omega, by simp; omega, rfl, rfl, rfl, rfl, hscen⟩
      · simp only [get_current_semester_info, if_neg h1, if_neg h2, if_neg h3]
        exact ⟨by simp; omega, by simp; omega, by simp; omega, rfl, rfl, rfl, rfl, hscen⟩

/-- C7 witness: the concrete date 2024-04-10. -/
theorem C7_semester_calendar_witness :
    (1 ≤ 4 ∧ 4 ≤ 12 ∧ 1 ≤ 10 ∧ 10 ≤ 31) ∧
      ((get_current_semester_info 2024 4 10).current_semester = some 1 ↔
        in_term1_window 4 10) ∧
      get_current_semester_info 2024 4 10 =
        ⟨some 1, some 2024, some 2, some 2024, some 2, some 2023⟩ :=
  ⟨by decide,
    (C7_semester_calendar 2024 4 10 (by decide) (by decide) (by decide) (by decide)).1,
    (C7_semester_calendar 2024 4 10 (by decide) (by decide) (by decide)
      (by decide)).2.2.2.2.2.2.2⟩

/-! ## Text helpers shared by the query validator, classifier and extractor -/

/-- Python's `in` operator on strings: substring containment, decided over the
character lists. -/
def str_contains (haystack needle : String) : Bool :=
  decide (needle.toList.IsInfix haystack.toList)

/-- Python `str.upper`, character by character (the SQL keywords involved are
ASCII). -/
def py_upper (s : String) : String :=
  ⟨s.data.map Char.toUpper⟩

/-- Python `str.lower`, character by character. -/
def py_lower (s : String) : String :=
  ⟨s.data.map Char.toLower⟩

/-! ## QueryValidator — src/7.multi_agent/server/base_tool.py -/

/-- Embedding of `QueryValidator.SQL_KEYWORDS`. -/
def SQL_KEYWORDS : List String :=
  ["SELECT", "FROM", "WHERE", "INSERT", "UPDATE", "DELETE",
   "JOIN", "INNER", "LEFT", "RIGHT", "OUTER", "ON",
   "GROUP BY", "ORDER BY", "HAVING", "LIMIT", "OFFSET",
   "CREATE", "DROP", "ALTER", "TABLE", "INDEX",
   "UNION", "DISTINCT", "COUNT", "SUM", "AVG", "MAX", "MIN"]

/-- Embedding of `QueryValidator.contains_sql_keywords`: some keyword occurs
as a substring of the uppercased query. -/
def contains_sql_keywords (query : String) : Bool :=
  SQL_KEYWORDS.any (fun keyword => str_contains (py_upper query) keyword)

/-- Rejection text returned by `validate_natural_language`. -/
def sql_rejection_message : String :=
  "❌ SQL 쿼리 직접 작성은 허용되지 않습니다!\n\n올바른 사용법: 자연어로 질문해주세요\n✅ \"컴퓨터 관련 강의 찾아줘\"\n✅ \"내 정보 조회해주세요\"\n\n잘못된 사용법:\n❌ \"SELECT * FROM ...\""

/-- Embedding of `QueryValidator.validate_natural_language`. -/
def validate_natural_language (query : String) : Option String :=
  if contains_sql_keywords query then some sql_rejection_message else none

/-- C10: the validator rejects exactly the queries whose uppercase form
contains some member of the fixed SQL keyword set as a substring — including
inside a longer natural-language word, as witnessed by an English sentence
containing "London" (whose uppercase form contains the keyword "ON") being
rejected — and returns nothing (letting the query proceed) otherwise. -/
theorem C10_sql_validator (query : String) :
    ((validate_natural_language query).isSome ↔
        ∃ k ∈ SQL_KEYWORDS, List.IsInfix k.toList (py_upper query).toList) ∧
      (validate_natural_language query = none ↔
        ∀ k ∈ SQL_KEYWORDS, ¬List.IsInfix k.toList (py_upper query).toList) ∧
      (validate_natural_language "tell me about the london campus").isSome = true ∧
      validate_natural_language "컴퓨터 관련 강의 찾아줘" = none := by
  refine ⟨?_, ?_, by decide, by decide⟩
  · unfold validate_natural_language contains_sql_keywords str_contains
    by_cases hb : SQL_KEYWORDS.any
        (fun keyword => decide (keyword.toList.IsInfix (py_upper query).toList)) = true
    · rw [if_pos hb]
      constructor
      · intro _
        obtain ⟨k, hk, hd⟩ := List.any_eq_true.mp hb
        exact ⟨k, hk, of_decide_eq_true hd⟩
      · intro _
        rfl
    · rw [if_neg hb]
      constructor
      · intro habs
        exact absurd habs (by simp)
      · rintro ⟨k, hk, hinf⟩
        exact (hb (List.any_eq_true.mpr ⟨k, hk, decide_eq_true hinf⟩)).elim
  · unfold validate_natural_language contains_sql_keywords str_contains
    by_cases hb : SQL_KEYWORDS.any
        (fun keyword => decide (keyword.toList.IsInfix (py_upper query).toList)) = true
    · rw [if_pos hb]
      constructor
      · intro habs
        exact absurd habs (by simp)
      · intro hall
        obtain ⟨k, hk, hd⟩ := List.any_eq_true.mp hb
        exact ((hall k hk) (of_decide_eq_true hd)).elim
    · rw [if_neg hb]
      constructor
      · intro _ k hk hinf
        exact hb (List.any_eq_true.mpr ⟨k, hk, decide_eq_true hinf⟩)
      · intro _
        rfl

/-- C10 witness: instantiating the validator characterization at a natural
Korean query shows it is not rejected. -/
theorem C10_sql_validator_witness :
    validate_natural_language "컴퓨터 관련 강의 찾아줘" = none :=
  (C10_sql_validator "컴퓨터 관련 강의 찾아줘").2.2.2

/-! ## AgentSystem.process_query — src/8.memory_agent/server/agent_system.py -/

/-- Embedding of the `QuestionType` enum. -/
inductive QuestionType
  | comprehensive
  | graduation
  | recommendation
  | course
  | student
  | general
deriving DecidableEq, Repr

/-- Value string of each `QuestionType` member. -/
def question_type_value : QuestionType → String
  | .comprehensive => "comprehensive"
  | .graduation => "graduation"
  | .recommendation => "recommendation"
  | .course => "course"
  | .student => "student"
  | .general => "general"

/-- Embedding of `AgentSystem.classify_question`: priority-ordered keyword
matching over the lowercased question. -/
def classify_question (question : String) : QuestionType :=
  let q := py_lower question
  if ["내 이수", "내 학기", "내 정보", "내 현황", "내 성적", "내 이력", "내 분석",
      "내 학점"].any (fun k => str_contains q k) then .student
  else if ["종합", "전체", "모든", "완전한", "전반적", "총괄"].any
      (fun k => str_contains q k) then .comprehensive
  else if ["졸업 요건", "졸업 학점", "졸업 논문", "졸업 인증", "졸업"].any
      (fun k => str_contains q k) then .graduation
  else if ["추천", "수강", "계획", "로드맵", "다음학기", "선택"].any
      (fun k => str_contains q k) then .recommendation
  else if ["강의", "과목", "시간표", "교수", "강좌"].any
      (fun k => str_contains q k) then .course
  else if ["내", "현황", "성적", "이력", "정보", "분석"].any
      (fun k => str_contains q k) then .student
  else .general

/-- In-memory history plus the JSON file contents `_save_memory` writes; the
file is rewritten from the history inside every `add_conversation`. -/
structure ConversationMemoryState where
  history : List ConversationTurn
  stored : List ConversationTurn
deriving DecidableEq, Repr

/-- Embedding of `add_conversation` together with its trailing
`_save_memory()` call. -/
def add_conversation_state (m : ConversationMemoryState) (t : ConversationTurn) :
    ConversationMemoryState :=
  ⟨add_conversation m.history t, add_conversation m.history t⟩

/-- Embedding of `AgentSystem.process_query`: classify the question, run the
crew (`crew.kickoff()`, the external collaborator, represented by its outcome
per question type), and only after a successful run append the turn to the
conversation memory. -/
def process_query (m : ConversationMemoryState) (question timestamp : String)
    (kickoff : QuestionType → Except String String) :
    ConversationMemoryState × Except String String :=
  match kickoff (classify_question question) with
  | .error e => (m, .error e)
  | .ok result =>
    (add_conversation_state m
        ⟨timestamp, question, result,
          question_type_value (classify_question question)⟩,
      .ok result)

/-- C8: when the crew execution fails with an exception, no ConversationTurn
is appended — the in-memory history and the persisted store are exactly as
they were before the call, and the failure propagates. -/
theorem C8_no_partial_write (m : ConversationMemoryState) (question timestamp : String)
    (kickoff : QuestionType → Except String String) (e : String)
    (h : kickoff (classify_question question) = .error e) :
    (process_query m question timestamp kickoff).1.history = m.history ∧
      (process_query m question timestamp kickoff).1.stored = m.stored ∧
      (process_query m question timestamp kickoff).2 = .error e := by
  unfold process_query
  rw [h]
  exact ⟨rfl, rfl, rfl⟩

/-- C8 witness: a kickoff that always raises leaves a concrete memory state
untouched. -/
theorem C8_no_partial_write_witness :
    (process_query ⟨[demoTurn 1], [demoTurn 1]⟩ "내 정보 알려줘" "ts"
          (fun _ => Except.error "boom")).1.history = [demoTurn 1] ∧
      (process_query ⟨[demoTurn 1], [demoTurn 1]⟩ "내 정보 알려줘" "ts"
          (fun _ => Except.error "boom")).1.stored = [demoTurn 1] ∧
      (process_query ⟨[demoTurn 1], [demoTurn 1]⟩ "내 정보 알려줘" "ts"
          (fun _ => Except.error "boom")).2 = Except.error "boom" :=
  C8_no_partial_write ⟨[demoTurn 1], [demoTurn 1]⟩ "내 정보 알려줘" "ts"
    (fun _ => Except.error "boom") "boom" rfl

/-! ## QueryParser semester extraction — src/7.multi_agent/server/query_parser.py -/

/-- Match of `(\d{4})-?([12])학기` at the head of the character list: four
digits, an optional hyphen, a term digit 1 or 2, then "학기". Returns the
captured year digits and term character. -/
def match_sem_full_at : List Char → Option (String × Char)
  | a :: b :: c :: d :: rest =>
    if a.isDigit && b.isDigit && c.isDigit && d.isDigit then
      match (match rest with | '-' :: r => r | r => r) with
      | s :: '학' :: '기' :: _ =>
        if s = '1' ∨ s = '2' then some (⟨[a, b, c, d]⟩, s) else none
      | _ => none
    else none
  | _ => none

/-- Leftmost occurrence of the `(\d{4})-?([12])학기` pattern. -/
def search_sem_full : List Char → Option (String × Char)
  | [] => none
  | c :: rest =>
    match match_sem_full_at (c :: rest) with
    | some r => some r
    | none => search_sem_full rest

/-- Match of `(\d{4})년\s*([12])학기` at the head of the character list. -/
def match_sem_spaced_at : List Char → Option (String × Char)
  | a :: b :: c :: d :: '년' :: rest =>
    if a.isDigit && b.isDigit && c.isDigit && d.isDigit then
      match rest.dropWhile Char.isWhitespace with
      | s :: '학' :: '기' :: _ =>
        if s = '1' ∨ s = '2' then some (⟨[a, b, c, d]⟩, s) else none
      | _ => none
    else none
  | _ => none

/-- Leftmost occurrence of the `(\d{4})년\s*([12])학기` pattern. -/
def search_sem_spaced : List Char → Option (String × Char)
  | [] => none
  | c :: rest =>
    match match_sem_spaced_at (c :: rest) with
    | some r => some r
    | none => search_sem_spaced rest

/-- Match of the term-only pattern `([12])학기` at the head of the list. -/
def match_sem_term_at : List Char → Option Char
  | s :: '학' :: '기' :: _ => if s = '1' ∨ s = '2' then some s else none
  | _ => none

/-- Leftmost occurrence of the term-only pattern. -/
def search_sem_term : List Char → Option Char
  | [] => none
  | c :: rest =>
    match match_sem_term_at (c :: rest) with
    | some r => some r
    | none => search_sem_term rest

/-- Embedding of the semester-extraction loop of `parse_enrollment_conditions`:
the three patterns are tried in order with the first matching pattern taken;
a two-group match yields `f"{year}-{sem}"`, the term-only pattern yields the
hardcoded `f"2025-{sem}"`. -/
def parse_enrollment_semester (query : String) : Option String :=
  match search_sem_full query.toList with
  | some (year, sem) => some (year ++ "-" ++ String.singleton sem)
  | none =>
    match search_sem_spaced query.toList with
    | some (year, sem) => some (year ++ "-" ++ String.singleton sem)
    | none =>
      match search_sem_term query.toList with
      | some sem => some ("2025-" ++ String.singleton sem)
      | none => none

/-- C6 counterexample: on the bare-term query "1학기" the extractor pairs the
hardcoded year 2025 with the term; it does not pair the current year (2026
today) with the term. -/
theorem C6_semester_counterexample :
    parse_enrollment_semester "1학기" = some "2025-1" ∧
      parse_enrollment_semester "1학기" ≠ some "2026-1" := by
  exact ⟨by decide, by decide⟩

/-- C6 (amended): the extractor tries the semester patterns in the order —
explicit year+term composite, then year+term with spacing, then term-only —
taking the first pattern that matches; and when only a bare term token
matches, the extracted value is the fixed year 2025 paired with that term. -/
theorem C6_semester_priority (query : String) :
    (∀ year sem, search_sem_full query.toList = some (year, sem) →
      parse_enrollment_semester query = some (year ++ "-" ++ String.singleton sem)) ∧
      (∀ year sem, search_sem_full query.toList = none →
        search_sem_spaced query.toList = some (year, sem) →
        parse_enrollment_semester query = some (year ++ "-" ++ String.singleton sem)) ∧
      (∀ sem, search_sem_full query.toList = none →
        search_sem_spaced query.toList = none →
        search_sem_term query.toList = some sem →
        parse_enrollment_semester query = some ("2025-" ++ String.singleton sem)) ∧
      (search_sem_full query.toList = none →
        search_sem_spaced query.toList = none →
        search_sem_term query.toList = none →
        parse_enrollment_semester query = none) := by
  refine ⟨?_, ?_, ?_, ?_⟩
  · intro year sem h
    unfold parse_enrollment_semester
    rw [h]
  · intro year sem h1 h2
    unfold parse_enrollment_semester
    rw [h1, h2]
  · intro sem h1 h2 h3
    unfold parse_enrollment_semester
    rw [h1, h2, h3]
  · intro h1 h2 h3
    unfold parse_enrollment_semester
    rw [h1, h2, h3]

/-- C6 witness: even though the term-only pattern matches earlier in the
string, the explicit year+term pattern has priority. -/
theorem C6_semester_priority_witness :
    search_sem_full "1학기는 2024-2학기".toList = some ("2024", '2') ∧
      parse_enrollment_semester "1학기는 2024-2학기" =
        some ("2024" ++ "-" ++ String.singleton '2') :=
  ⟨by decide, (C6_semester_priority "1학기는 2024-2학기").1 "2024" '2' (by decide)⟩

/-! ## QueryParser.parse_course_conditions and CourseTool._search_by_conditions
— src/7.multi_agent/server/query_parser.py, tools/course_tool.py -/

/-- Python `\w` word character for the parser's regular expressions: ASCII
alphanumerics, the underscore, and Hangul syllables. -/
def is_word_char (c : Char) : Bool :=
  c.isAlphanum || c = '_' || (0xAC00 ≤ c.toNat && c.toNat ≤ 0xD7A3)

/-- Greedy backtracking for `\w+` followed by a fixed continuation: try the
longest word-character run first, shrinking until the continuation check
succeeds (`check k` examines the split after `k` word characters). -/
def try_runs (check : Nat → Option String) : Nat → Option String
  | 0 => none
  | k + 1 =>
    match check (k + 1) with
    | some r => some r
    | none => try_runs check k

/-- Match of `(\w+학과)` at the head of the list; the group includes the
suffix. -/
def match_dept_full_at (l : List Char) : Option String :=
  try_runs (fun k =>
    match l.drop k with
    | '학' :: '과' :: _ => some ⟨l.take (k + 2)⟩
    | _ => none) ((l.takeWhile is_word_char).length)

/-- Match of `(\w+과)(?!목)` at the head of the list: the character after the
matched 과 must not be 목. -/
def match_dept_short_at (l : List Char) : Option String :=
  try_runs (fun k =>
    match l.drop k with
    | '과' :: '목' :: _ => none
    | '과' :: _ => some ⟨l.take (k + 1)⟩
    | _ => none) ((l.takeWhile is_word_char).length)

/-- Match of `(\w+)학과` at the head of the list; the group excludes the
suffix. -/
def match_dept_group_full_at (l : List Char) : Option String :=
  try_runs (fun k =>
    match l.drop k with
    | '학' :: '과' :: _ => some ⟨l.take k⟩
    | _ => none) ((l.takeWhile is_word_char).length)

/-- Match of `(\w+)과(?!목)` at the head of the list; the group excludes the
suffix. -/
def match_dept_group_short_at (l : List Char) : Option String :=
  try_runs (fun k =>
    match l.drop k with
    | '과' :: '목' :: _ => none
    | '과' :: _ => some ⟨l.take k⟩
    | _ => none) ((l.takeWhile is_word_char).length)

/-- Match of `(\w+)\s*교수` at the head of the list. -/
def match_professor_at (l : List Char) : Option String :=
  try_runs (fun k =>
    match (l.drop k).dropWhile Char.isWhitespace with
    | '교' :: '수' :: _ => some ⟨l.take k⟩
    | _ => none) ((l.takeWhile is_word_char).length)

/-- Match of `([1-4])학년` at the head of the list. -/
def match_grade_at : List Char → Option String
  | g :: '학' :: '년' :: _ =>
    if g = '1' ∨ g = '2' ∨ g = '3' ∨ g = '4' then some (String.singleton g) else none
  | _ => none

/-- Leftmost match of a positional matcher, mirroring `re.search`. -/
def search_pattern (match_at : List Char → Option String) : List Char → Option String
  | [] => none
  | c :: rest =>
    match match_at (c :: rest) with
    | some r => some r
    | none => search_pattern match_at rest

/-- Generic terms excluded from the department condition. -/
def dept_stoplist : List String := ["과목", "학과", "전공", "강의"]

/-- Embedding of `QueryParser.SYNONYM_MAPPING`, in insertion order. -/
def SYNONYM_MAPPING : List (String × List String) :=
  [("국문학", ["국문학", "한국어문학", "한국문학", "국어국문학"]),
   ("국문", ["국문", "한국어문", "한국문", "국어국문"]),
   ("영문학", ["영문학", "영어영문학", "영어문학"]),
   ("영문", ["영문", "영어영문", "영어"]),
   ("중문학", ["중문학", "중국학", "중국어문"]),
   ("중문", ["중문", "중국", "중국어"]),
   ("심리학", ["심리학", "심리"]),
   ("경영학", ["경영학", "경영", "기업경영"]),
   ("컴퓨터", ["컴퓨터", "소프트웨어", "SW", "IT", "인공지능", "AI"]),
   ("수학", ["수학", "응용수학", "통계"]),
   ("물리", ["물리", "물리학", "응용물리"]),
   ("화학", ["화학", "응용화학", "생화학"]),
   ("역사", ["역사", "한국역사", "세계사"]),
   ("미술", ["미술", "회화", "조형", "디자인"]),
   ("음악", ["음악", "성악", "피아노", "관현악"]),
   ("체육", ["체육", "스포츠", "운동"])]

/-- Embedding of `QueryParser.SUBJECT_KEYWORDS`, in order. -/
def SUBJECT_KEYWORDS : List String :=
  ["심리학", "심리", "수학", "영어", "물리학", "화학", "생물학",
   "역사", "철학", "경제학", "경영학", "컴퓨터", "프로그래밍",
   "데이터", "인공지능", "AI", "머신러닝", "통계", "국문학", "국문",
   "영문학", "영문", "중문학", "중문"]

/-- Value a parsed condition can hold: a plain token, or a whole synonym
group (`_apply_synonym_mapping` returns the entire group on a hit). -/
inductive SynValue
  | token (s : String)
  | group (l : List String)
deriving DecidableEq, Repr

/-- Embedding of `QueryParser._apply_synonym_mapping`: the first synonym group
containing the keyword, else the keyword itself. -/
def apply_synonym_mapping (keyword : String) : SynValue :=
  match SYNONYM_MAPPING.find? (fun g => g.2.contains keyword) with
  | some g => .group g.2
  | none => .token keyword

/-- Department-extraction loop of `parse_course_conditions`: patterns are
tried in order; a match whose group is a stoplisted generic term does not
set the condition and falls through to the next pattern. -/
def find_department : List (List Char → Option String) → List Char → Option String
  | [], _ => none
  | p :: ps, l =>
    match search_pattern p l with
    | some name =>
      if dept_stoplist.contains name then find_department ps l else some name
    | none => find_department ps l

/-- The four department patterns, in the order the source lists them. -/
def dept_patterns : List (List Char → Option String) :=
  [match_dept_full_at, match_dept_short_at, match_dept_group_full_at,
   match_dept_group_short_at]

/-- Parsed course-search conditions; absent fields are `none`
(`course_type` is initialized but never set by the parser). -/
structure CourseConditions where
  grade : Option String
  department : Option SynValue
  subject_keyword : Option SynValue
  professor : Option String
  course_type : Option String
deriving DecidableEq, Repr

/-- Embedding of `QueryParser.parse_course_conditions`. -/
def parse_course_conditions (query : String) : CourseConditions :=
  { grade := search_pattern match_grade_at query.toList
    department := (find_department dept_patterns query.toList).map apply_synonym_mapping
    subject_keyword :=
      (SUBJECT_KEYWORDS.find? (fun kw => str_contains query kw)).map apply_synonym_mapping
    professor := search_pattern match_professor_at query.toList
    course_type := none }

/-- Python truthiness of an optional string condition value. -/
def opt_str_truthy : Option String → Bool
  | none => false
  | some s => !s.isEmpty

/-- Python truthiness of an optional token-or-group condition value. -/
def syn_truthy : Option SynValue → Bool
  | none => false
  | some (.token s) => !s.isEmpty
  | some (.group l) => !l.isEmpty

/-- Python `any(conditions.values())` over the parsed fields. -/
def any_condition (c : CourseConditions) : Bool :=
  opt_str_truthy c.grade || syn_truthy c.department || syn_truthy c.subject_keyword ||
    opt_str_truthy c.professor || opt_str_truthy c.course_type

/-- Outcome of `_search_by_conditions`: either the usage guide is returned,
or the dynamically built query over the parsed conditions is executed
against the database. -/
inductive SearchOutcome
  | usage_guide (text : String)
  | db_query (conditions : CourseConditions)
deriving DecidableEq, Repr

/-- Text returned by `CourseTool._get_usage_guide`. -/
def usage_guide_text : String :=
  "강의 검색 예시:\n- '3학년 과목 중 한국역사학과 개설 강의 알려줘'\n- '심리학 관련 강의 검색해줘'\n- '김철수 교수의 강의를 알려줘'\n- '소프트웨어학과 2학년 과목 알려줘'\n- '컴퓨터 관련 강의 찾아줘'\n- '다음 학기 개설 과목 알려줘'\n- '국문학과 관련 강의 검색해줘'"

/-- Embedding of `CourseTool._search_by_conditions`' dispatch: parse the
conditions; when no condition is populated return the usage guide, otherwise
issue the dynamically built query. -/
def search_by_conditions (query : String) : SearchOutcome :=
  if any_condition (parse_course_conditions query) then
    .db_query (parse_course_conditions query)
  else .usage_guide usage_guide_text

/-- C9: whenever the condition extractor populates no field of the course
conditions, the tool returns the usage-guide message and issues no database
query. -/
theorem C9_usage_guide (query : String)
    (h : parse_course_conditions query = ⟨none, none, none, none, none⟩) :
    search_by_conditions query = .usage_guide usage_guide_text ∧
      ∀ conditions, search_by_conditions query ≠ .db_query conditions := by
  have hres : search_by_conditions query = .usage_guide usage_guide_text := by
    unfold search_by_conditions
    rw [h]
    rfl
  refine ⟨hres, fun conditions hc => ?_⟩
  rw [hres] at hc
  exact SearchOutcome.noConfusion hc

/-- C9 witness: a greeting with no recognizable condition yields the usage
guide. -/
theorem C9_usage_guide_witness :
    parse_course_conditions "안녕하세요" = ⟨none, none, none, none, none⟩ ∧
      search_by_conditions "안녕하세요" = SearchOutcome.usage_guide usage_guide_text :=
  ⟨by decide, (C9_usage_guide "안녕하세요" (by decide)).1⟩

end NxtAgent
